import Mathlib

/-!
Verification development for the Azure AI Image Editor MCP server.

The repository ships three server entry points sharing near-identical logic:
  * `src/http_server.py`      - VSCode-compatible FastAPI HTTP transport (with audit trail);
    definitions below carry the `vscode_` marker.
  * `src/mcp_server.py`       - stdio transport over the MCP library;
    definitions below carry the `stdio_` marker.
  * `src/mcp_server_http.py`  - Starlette HTTP transport;
    definitions below carry the `st_` marker.

The pure validation helpers, the configuration loader, the tool registries,
the four tool handlers and the two HTTP dispatchers are embedded as Lean
functions.  External collaborators (filesystem, base64 decoding of client
payloads, PIL format detection, temp-file allocation, and the Azure image
API) are modelled by an explicit oracle structure `World`; each handler
returns its content blocks together with an ordered trace of the side
effects it performs (audit writes, upstream calls, temp-file lifecycle).

Python `arguments` dictionaries are modelled by `ToolArgs`, a record of the
five keys the handlers actually read; an absent key is `none` (JSON `null`
arguments, which Python's `dict.get` would also surface as `None`, are
outside the modelled domain).  Python string truthiness (`not s`) is
`pyFalsy`.
-/

namespace AzureMCP

/-- Code points removed by Python's `str.strip()` (Unicode whitespace). -/
def pyWhitespaceCodes : List Nat :=
  [0x09, 0x0a, 0x0b, 0x0c, 0x0d, 0x1c, 0x1d, 0x1e, 0x1f, 0x20, 0x85, 0xa0,
   0x1680, 0x2000, 0x2001, 0x2002, 0x2003, 0x2004, 0x2005, 0x2006, 0x2007,
   0x2008, 0x2009, 0x200a, 0x2028, 0x2029, 0x202f, 0x205f, 0x3000]

def pyIsSpace (c : Char) : Bool :=
  pyWhitespaceCodes.contains c.toNat

/-- Python `str.strip()` on the underlying character list. -/
def pyStripChars (l : List Char) : List Char :=
  ((l.dropWhile pyIsSpace).reverse.dropWhile pyIsSpace).reverse

/-- Python `str.strip()`. -/
def pyStrip (s : String) : String :=
  String.mk (pyStripChars s.data)

/-- Python truthiness of an optional string: `None` and the empty string are falsy. -/
def pyFalsy : Option String → Bool
  | none => true
  | some s => s.isEmpty

/-- Python f-string rendering of an optional string (`None` prints as "None"). -/
def pyShowOptStr : Option String → String
  | none => "None"
  | some s => s

/-- Membership of a character in the four rejected Unicode ranges
(CJK Unified Ideographs, Hiragana, Katakana, Hangul Syllables),
from `is_english_text` in all three server files. -/
def isCJKChar (c : Char) : Bool :=
  (0x4e00 ≤ c.toNat && c.toNat ≤ 0x9fff) ||
  (0x3040 ≤ c.toNat && c.toNat ≤ 0x309f) ||
  (0x30a0 ≤ c.toNat && c.toNat ≤ 0x30ff) ||
  (0xac00 ≤ c.toNat && c.toNat ≤ 0xd7af)

/-- Embedding of `is_english_text` (identical in all three server files):
whitespace-only text is accepted, otherwise the text is scanned for any
character in the four rejected ranges. -/
def is_english_text (text : String) : Bool :=
  if pyStripChars text.data = [] then true
  else !(text.data.any isCJKChar)

/-- The supported-size enumeration from `validate_image_size`. -/
def supported_sizes : List String :=
  ["1024x1024", "1792x1024", "1024x1792"]

/-- Embedding of `validate_image_size` (identical in all three server files). -/
def validate_image_size (size : String) : Bool :=
  supported_sizes.contains size

/-- Process environment restricted to the variables the servers read. An
unset variable is `none`. -/
structure Env where
  azure_base_url : Option String := none
  azure_api_key : Option String := none
  azure_deployment_name : Option String := none
  azure_model : Option String := none
  azure_api_version : Option String := none
  default_image_size : Option String := none
deriving DecidableEq, Repr

/-- Python `os.getenv("DEFAULT_IMAGE_SIZE", "1024x1024")`. -/
def defaultImageSize (env : Env) : String :=
  env.default_image_size.getD "1024x1024"

/-- Python required-variable presence test in `get_azure_config`:
`if not value or not value.strip()` marks the variable missing. -/
def envVarOk : Option String → Bool
  | none => false
  | some v => !v.isEmpty && !(pyStrip v).isEmpty

/-- Configuration record built by `get_azure_config` in `mcp_server.py` and
`mcp_server_http.py`. -/
structure AzureConfig where
  base_url : String
  api_key : String
  deployment_name : String
  model : String
  api_version : String
deriving DecidableEq, Repr

/-- Configuration record built by `get_azure_config` in `http_server.py`
(which has no api-version handling). -/
structure AzureConfigV where
  base_url : String
  api_key : String
  deployment_name : String
  model : String
deriving DecidableEq, Repr

def missingRequiredMsg (missing : List String) : String :=
  "Missing required environment variables: " ++ String.intercalate ", " missing

/-- Missing-variable list accumulated by `get_azure_config`, in source order. -/
def missingVars (env : Env) : List String :=
  (if envVarOk env.azure_base_url then [] else
    ["AZURE_BASE_URL (Base URL for Azure AI service)"]) ++
  (if envVarOk env.azure_api_key then [] else
    ["AZURE_API_KEY (API key for Azure AI service)"]) ++
  (if envVarOk env.azure_deployment_name then [] else
    ["AZURE_DEPLOYMENT_NAME (Deployment model name)"])

/-- Python `value.strip() if value and value.strip() else dflt` for optional
environment variables. -/
def optEnvWithDefault (v : Option String) (dflt : String) : String :=
  match v with
  | some s => if (pyStrip s).isEmpty then dflt else pyStrip s
  | none => dflt

/-- Python `str.startswith`, on the underlying character lists. -/
def strStartsWith (s p : String) : Bool :=
  s.data.take p.data.length == p.data

/-- Validation applied after the presence check in every `get_azure_config`
variant: URL scheme, key length, non-empty deployment name. Returns the
`str(e)` of the `ValueError` raised on failure. -/
def configValueError (base_url api_key deployment_name : String) : Option String :=
  if !(strStartsWith base_url "http://" || strStartsWith base_url "https://") then
    some "AZURE_BASE_URL must be a valid HTTP/HTTPS URL"
  else if api_key.length < 10 then
    some "AZURE_API_KEY is too short, please check if the API key is correct"
  else if deployment_name.isEmpty then
    some "AZURE_DEPLOYMENT_NAME cannot be empty"
  else none

/-- Embedding of `get_azure_config` from `http_server.py`: the error case
carries `str(e)` of the raised exception. -/
def get_azure_config_vscode (env : Env) : Except String AzureConfigV :=
  let missing := missingVars env
  let model := optEnvWithDefault env.azure_model "flux.1-kontext-pro"
  if missing.isEmpty then
    let base_url := pyStrip (env.azure_base_url.getD "")
    let api_key := pyStrip (env.azure_api_key.getD "")
    let deployment_name := pyStrip (env.azure_deployment_name.getD "")
    match configValueError base_url api_key deployment_name with
    | some e => .error e
    | none => .ok { base_url, api_key, deployment_name, model }
  else .error (missingRequiredMsg missing)

/-- Embedding of `get_azure_config` from `mcp_server.py` and
`mcp_server_http.py` (identical there): adds the api-version variable. -/
def get_azure_config (env : Env) : Except String AzureConfig :=
  let missing := missingVars env
  let model := optEnvWithDefault env.azure_model "flux.1-kontext-pro"
  let api_version := optEnvWithDefault env.azure_api_version "2025-04-01-preview"
  if missing.isEmpty then
    let base_url := pyStrip (env.azure_base_url.getD "")
    let api_key := pyStrip (env.azure_api_key.getD "")
    let deployment_name := pyStrip (env.azure_deployment_name.getD "")
    match configValueError base_url api_key deployment_name with
    | some e => .error e
    | none => .ok { base_url, api_key, deployment_name, model, api_version }
  else .error (missingRequiredMsg missing)

def exceptIsOk {ε α : Type} : Except ε α → Bool
  | .ok _ => true
  | .error _ => false

/-- Image payloads as byte lists. -/
abbrev Bytes := List Nat

def b64Alphabet : List Char :=
  "ABCDEFGHIJKLMNOPQRSTUVWXYZabcdefghijklmnopqrstuvwxyz0123456789+/".data

def b64CharAt (n : Nat) : Char :=
  b64Alphabet.getD n '='

/-- Standard base64 of a byte list, chunked three bytes at a time, used to
model Python `base64.b64encode(...).decode('utf-8')`. -/
def b64encodeChunks : List Nat → List Char
  | [] => []
  | [a] =>
      [b64CharAt (a / 4), b64CharAt (a % 4 * 16), '=', '=']
  | [a, b] =>
      [b64CharAt (a / 4), b64CharAt (a % 4 * 16 + b / 16),
       b64CharAt (b % 16 * 4), '=']
  | a :: b :: c :: rest =>
      b64CharAt (a / 4) :: b64CharAt (a % 4 * 16 + b / 16) ::
      b64CharAt (b % 16 * 4 + c / 64) :: b64CharAt (c % 64) ::
      b64encodeChunks rest

def base64_b64encode (bs : Bytes) : String :=
  String.mk (b64encodeChunks bs)

/-- One unit of a tool result, as serialized on the wire. -/
inductive ContentBlock
  | text (s : String)
  | image (data : String) (mimeType : String)
deriving DecidableEq, Repr

/-- Calls made to the external Azure image collaborator
(`AzureImageGenerator.generate_image` / `.edit_image`). -/
inductive GenCall
  | generate (prompt : String) (size : String) (output_path : Option String)
  | edit (image_path : String) (prompt : String) (size : Option String)
      (output_path : Option String)
deriving DecidableEq, Repr

/-- Payload serialized to `request.json` by `log_audit_request` in
`http_server.py`, one variant per operation. -/
inductive AuditPayload
  | genRequest (prompt : String) (size : String) (output_path : Option String)
  | editRequest (image_path : String) (prompt : String)
      (size : Option String) (output_path : Option String)
deriving DecidableEq, Repr

/-- Side effects performed by the handlers, in execution order.
`auditResponse err png out` records `log_audit_response` writing
`response.json` (with `err` the error payload if any), optionally saving
`result.png` (`png`), and optionally copying the upstream output file
(`out`).  `tempCreate`/`tempDelete` track the Starlette edit handler's
temporary input file. -/
inductive Event
  | createAuditSession (operation_type : String)
  | auditRequest (payload : AuditPayload)
  | auditResponse (error : Option String) (savedPng : Bool)
      (copiedOutput : Option String)
  | copyInputImage (path : String)
  | upstream (c : GenCall)
  | tempCreate (path : String)
  | tempDelete (path : String)
deriving DecidableEq, Repr

def Event.isUpstream : Event → Bool
  | .upstream _ => true
  | _ => false

/-- External collaborators consumed by the handlers, as pure oracles:
the filesystem (`pathExists`, `readFile`), the base64 decoder applied to
client payloads, PIL format detection, temp-file naming, and the Azure
image API (the bytes it would return, or the `str` of the exception the
client raises). -/
structure World where
  pathExists : String → Bool
  readFile : String → Except String Bytes
  b64decode : String → Except String Bytes
  detectFormat : Bytes → Except String String
  tempFileName : String → String
  upstreamGenerate : String → String → Except String Bytes
  upstreamEdit : String → String → Option String → Except String Bytes

/-- The `arguments` mapping of a `tools/call`, restricted to the keys the
handlers read; an absent key is `none`. -/
structure ToolArgs where
  prompt : Option String := none
  size : Option String := none
  output_path : Option String := none
  image_path : Option String := none
  image_data_base64 : Option String := none
deriving DecidableEq, Repr

/-- What a tool handler produces: its content blocks and the ordered trace
of side effects it performed. -/
structure HandlerResult where
  content : List ContentBlock
  events : List Event
deriving DecidableEq, Repr

def noUpstream (r : HandlerResult) : Bool :=
  r.events.all (fun e => !e.isUpstream)

/-- Fixed suffix appended to the caller's prompt by every edit handler. -/
def editPromptSuffix : String :=
  " (and all other elements exactly the same)"

def englishGenMsg : String :=
  "Prompt must be in English. Please use English to describe the image you want to generate."

def englishEditMsg : String :=
  "Prompt must be in English. Please use English to describe how you want to edit the image."

def unsupportedSizeMsg (size : String) : String :=
  "Unsupported image size: " ++ size ++
  ". Supported sizes: 1024x1024, 1792x1024, 1024x1792"

/-- Embedding of `handle_generate_image` from `http_server.py` (VSCode
HTTP transport).  Mirrors the source order: the audit session is created
and `request.json` written first, then configuration, language and size
checks run, then the upstream collaborator is invoked and the response
recorded. -/
def vscode_handle_generate_image (env : Env) (w : World) (args : ToolArgs) :
    HandlerResult :=
  let prompt := args.prompt.getD ""
  let size := args.size.getD (defaultImageSize env)
  let output_path := args.output_path
  let ev0 := [Event.createAuditSession "generate_image",
              Event.auditRequest (.genRequest prompt size output_path)]
  match get_azure_config_vscode env with
  | .error e =>
      let msg := "Azure configuration error: " ++ e
      { content := [.text msg], events := ev0 ++ [.auditResponse (some msg) false none] }
  | .ok _cfg =>
    if !(is_english_text prompt) then
      { content := [.text englishGenMsg],
        events := ev0 ++ [.auditResponse (some englishGenMsg) false none] }
    else if !(validate_image_size size) then
      let msg := unsupportedSizeMsg size
      { content := [.text msg], events := ev0 ++ [.auditResponse (some msg) false none] }
    else
      let ev1 := ev0 ++ [Event.upstream (.generate prompt size output_path)]
      match w.upstreamGenerate prompt size with
      | .error e =>
          let msg := "Error generating image: " ++ e
          { content := [.text msg], events := ev1 ++ [.auditResponse (some msg) false none] }
      | .ok bytes =>
        match output_path with
        | some p =>
            { content := [.text ("Image successfully generated and saved to: " ++ p)],
              events := ev1 ++
                [.auditResponse none false (if w.pathExists p then some p else none)] }
        | none =>
            { content := [.text ("Image generation successful, prompt: '" ++ prompt ++
                                 "', size: " ++ size),
                          .image (base64_b64encode bytes) "image/png"],
              events := ev1 ++ [.auditResponse none true none] }

/-- Embedding of `handle_edit_image` from `http_server.py` (VSCode HTTP
transport).  Note the source performs no size validation for edits. -/
def vscode_handle_edit_image (env : Env) (w : World) (args : ToolArgs) :
    HandlerResult :=
  let image_path := args.image_path.getD ""
  let prompt := args.prompt.getD "" ++ editPromptSuffix
  let size := args.size
  let output_path := args.output_path
  let ev0 := [Event.createAuditSession "edit_image",
              Event.auditRequest (.editRequest image_path prompt size output_path)] ++
             (if w.pathExists image_path then [Event.copyInputImage image_path] else [])
  match get_azure_config_vscode env with
  | .error e =>
      let msg := "Azure configuration error: " ++ e
      { content := [.text msg], events := ev0 ++ [.auditResponse (some msg) false none] }
  | .ok _cfg =>
    if !(is_english_text prompt) then
      { content := [.text englishEditMsg],
        events := ev0 ++ [.auditResponse (some englishEditMsg) false none] }
    else if !(w.pathExists image_path) then
      let msg := "Error: Image file not found " ++ image_path
      { content := [.text msg], events := ev0 ++ [.auditResponse (some msg) false none] }
    else
      let ev1 := ev0 ++ [Event.upstream (.edit image_path prompt size output_path)]
      match w.upstreamEdit image_path prompt size with
      | .error e =>
          let msg := "Error editing image: " ++ e
          { content := [.text msg], events := ev1 ++ [.auditResponse (some msg) false none] }
      | .ok bytes =>
        match output_path with
        | some p =>
            { content := [.text ("Image successfully edited and saved to: " ++ p)],
              events := ev1 ++
                [.auditResponse none false (if w.pathExists p then some p else none)] }
        | none =>
            { content := [.text ("Image editing successful, edit prompt: '" ++ prompt ++
                                 "', source file: " ++ image_path),
                          .image (base64_b64encode bytes) "image/png"],
              events := ev1 ++ [.auditResponse none true none] }

/-- Embedding of `handle_generate_image` from `mcp_server.py` (stdio
transport).  Same check order as the VSCode handler but with no audit
trail. -/
def stdio_handle_generate_image (env : Env) (w : World) (args : ToolArgs) :
    HandlerResult :=
  let prompt := args.prompt.getD ""
  let size := args.size.getD (defaultImageSize env)
  let output_path := args.output_path
  match get_azure_config env with
  | .error e =>
      { content := [.text ("Azure configuration error: " ++ e)], events := [] }
  | .ok _cfg =>
    if !(is_english_text prompt) then
      { content := [.text englishGenMsg], events := [] }
    else if !(validate_image_size size) then
      { content := [.text (unsupportedSizeMsg size)], events := [] }
    else
      let ev1 := [Event.upstream (.generate prompt size output_path)]
      match w.upstreamGenerate prompt size with
      | .error e =>
          { content := [.text ("Error generating image: " ++ e)], events := ev1 }
      | .ok bytes =>
        match output_path with
        | some p =>
            { content := [.text ("Image successfully generated and saved to: " ++ p)],
              events := ev1 }
        | none =>
            { content := [.text ("Image generation successful, prompt: '" ++ prompt ++
                                 "', size: " ++ size),
                          .image (base64_b64encode bytes) "image/png"],
              events := ev1 }

/-- Embedding of `handle_edit_image` from `mcp_server.py` (stdio
transport).  The required-parameter check on `image_path` runs before the
configuration and language checks; there is no size validation. -/
def stdio_handle_edit_image (env : Env) (w : World) (args : ToolArgs) :
    HandlerResult :=
  let image_path := args.image_path.getD ""
  let prompt := args.prompt.getD "" ++ editPromptSuffix
  let size := args.size
  let output_path := args.output_path
  if pyFalsy args.image_path then
    { content := [.text "image_path parameter is required"], events := [] }
  else
    match get_azure_config env with
    | .error e =>
        { content := [.text ("Azure configuration error: " ++ e)], events := [] }
    | .ok _cfg =>
      if !(is_english_text prompt) then
        { content := [.text englishEditMsg], events := [] }
      else if !(w.pathExists image_path) then
        { content := [.text ("Error: Image file not found " ++ image_path)], events := [] }
      else
        let ev1 := [Event.upstream (.edit image_path prompt size output_path)]
        match w.upstreamEdit image_path prompt size with
        | .error e =>
            { content := [.text ("Error editing image: " ++ e)], events := ev1 }
        | .ok bytes =>
          match output_path with
          | some p =>
              { content := [.text ("Image successfully edited and saved to: " ++ p)],
                events := ev1 }
          | none =>
              { content := [.text ("Image editing successful, edit prompt: '" ++ prompt ++
                                   "', source file: " ++ image_path),
                            .image (base64_b64encode bytes) "image/png"],
                events := ev1 }

/-- Embedding of `handle_generate_image` from `mcp_server_http.py`
(Starlette transport).  When `output_path` is given the saved file is read
back so that image bytes are always returned to the client; a read-back
failure is caught by the outer handler. -/
def st_handle_generate_image (env : Env) (w : World) (args : ToolArgs) :
    HandlerResult :=
  let prompt := args.prompt.getD ""
  let size := args.size.getD (defaultImageSize env)
  let output_path := args.output_path
  match get_azure_config env with
  | .error e =>
      { content := [.text ("Azure configuration error: " ++ e)], events := [] }
  | .ok _cfg =>
    if !(is_english_text prompt) then
      { content := [.text englishGenMsg], events := [] }
    else if !(validate_image_size size) then
      { content := [.text (unsupportedSizeMsg size)], events := [] }
    else
      let ev1 := [Event.upstream (.generate prompt size output_path)]
      match w.upstreamGenerate prompt size with
      | .error e =>
          { content := [.text ("Error generating image: " ++ e)], events := ev1 }
      | .ok bytes =>
        match output_path with
        | some p =>
          match w.readFile p with
          | .error e =>
              { content := [.text ("Error generating image: " ++ e)], events := ev1 }
          | .ok rb =>
              { content := [.text ("Image successfully generated. Saved to server at: " ++ p),
                            .image (base64_b64encode rb) "image/png"],
                events := ev1 }
        | none =>
            { content := [.text ("Image generation successful, prompt: '" ++ prompt ++
                                 "', size: " ++ size),
                          .image (base64_b64encode bytes) "image/png"],
              events := ev1 }

/-- Everything after the first comma of a Data URL
(Python `base64_data.split(',', 1)[1]`). -/
def afterFirstComma (s : String) : String :=
  String.mk ((s.data.dropWhile (· != ',')).drop 1)

/-- Embedding of `handle_edit_image` from `mcp_server_http.py` (Starlette
transport).  The base64 payload is decoded to a temporary file whose
deletion is performed by the source's `finally` block on every path that
created it; the file the handler just wrote exists at cleanup time, so the
`os.path.exists` guard of the cleanup passes and the unlink is modelled as
succeeding.  There is no size validation. -/
def st_handle_edit_image (env : Env) (w : World) (args : ToolArgs) :
    HandlerResult :=
  let prompt := args.prompt.getD "" ++ editPromptSuffix
  let size := args.size
  let output_path := args.output_path
  if pyFalsy args.image_data_base64 then
    { content := [.text "'image_data_base64' parameter is required in HTTP mode"],
      events := [] }
  else
    match get_azure_config env with
    | .error e =>
        { content := [.text ("Azure configuration error: " ++ e)], events := [] }
    | .ok _cfg =>
      if !(is_english_text prompt) then
        { content := [.text englishEditMsg], events := [] }
      else
        let base64_data := pyStrip (args.image_data_base64.getD "")
        if strStartsWith base64_data "data:" && !(base64_data.data.contains ',') then
          { content := [.text "Invalid Data URL format: missing comma separator"],
            events := [] }
        else
          let payload :=
            if strStartsWith base64_data "data:" then afterFirstComma base64_data
            else base64_data
          match w.b64decode payload with
          | .error e =>
              { content := [.text ("Failed to decode base64 image data: " ++ e)],
                events := [] }
          | .ok image_bytes =>
            let img_format :=
              match w.detectFormat image_bytes with
              | .ok f => f
              | .error _ => "png"
            let temp_path := w.tempFileName ("." ++ img_format)
            let ev1 := [Event.tempCreate temp_path,
                        Event.upstream (.edit temp_path prompt size output_path)]
            let cleanup := [Event.tempDelete temp_path]
            match w.upstreamEdit temp_path prompt size with
            | .error e =>
                { content := [.text ("Error editing image: " ++ e)],
                  events := ev1 ++ cleanup }
            | .ok result_bytes =>
              match output_path with
              | some p =>
                match w.readFile p with
                | .error e =>
                    { content := [.text ("Error editing image: " ++ e)],
                      events := ev1 ++ cleanup }
                | .ok rb =>
                    { content := [.text ("Image successfully edited. Saved to server at: " ++ p),
                                  .image (base64_b64encode rb) "image/png"],
                      events := ev1 ++ cleanup }
              | none =>
                  { content := [.text ("Image editing successful, edit prompt: '" ++ prompt ++ "'"),
                                .image (base64_b64encode result_bytes) "image/png"],
                    events := ev1 ++ cleanup }

/-- Embedding of `call_tool` from `mcp_server_http.py`: an unknown tool
name produces a normal result whose content is a single error text
block. -/
def st_call_tool (env : Env) (w : World) (name : Option String)
    (args : ToolArgs) : HandlerResult :=
  if name = some "generate_image" then st_handle_generate_image env w args
  else if name = some "edit_image" then st_handle_edit_image env w args
  else
    { content := [.text ("Error: Unknown tool '" ++ pyShowOptStr name ++ "'")],
      events := [] }

/-- Directory name allocated by `create_audit_session` in `http_server.py`:
the Python source formats
`f"{timestamp}_{session_id[:8]}_anonymous_{operation_type}"`. -/
def create_audit_session_dirname (timestamp session_id operation_type : String) :
    String :=
  timestamp ++ "_" ++ session_id.take 8 ++ "_anonymous_" ++ operation_type

/-- Directory name pattern stated by the specification,
`\x7bYYYYMMDD_HHMMSS\x7d_\x7buuid8\x7d_\x7boperationKind\x7d`, written as a
function so it can be compared with the source's
`create_audit_session_dirname`. -/
def spec_audit_dirname (timestamp uuid8 operation_kind : String) : String :=
  timestamp ++ "_" ++ uuid8 ++ "_" ++ operation_kind

/-- One property entry of a tool's JSON input schema. -/
structure PropertyField where
  name : String
  type : String
  description : String
  defaultVal : Option String := none
  enumVals : Option (List String) := none
deriving DecidableEq, Repr

/-- A wire-level tool descriptor. -/
structure ToolDescriptor where
  name : String
  description : String
  properties : List PropertyField
  required : List String
deriving DecidableEq, Repr

def sizeDescription (default_size : String) : String :=
  "Image size, supports 1024x1024, 1792x1024, 1024x1792, default: " ++ default_size

/-- Tool list rendered by the `tools/list` branch of `handle_mcp_request`
in `http_server.py` (VSCode HTTP transport). -/
def vscode_tools (env : Env) : List ToolDescriptor :=
  let default_size := defaultImageSize env
  [{ name := "generate_image",
     description := "Generate images from text prompts using Azure AI Foundry (English prompts only)",
     properties :=
       [{ name := "prompt", type := "string",
          description := "English description for image generation" },
        { name := "size", type := "string",
          description := sizeDescription default_size,
          defaultVal := some default_size,
          enumVals := some supported_sizes },
        { name := "output_path", type := "string",
          description := "Optional output file path" }],
     required := ["prompt"] },
   { name := "edit_image",
     description := "Edit existing images using Azure AI Foundry (English prompts only)",
     properties :=
       [{ name := "image_path", type := "string",
          description := "Path to the image file to edit" },
        { name := "prompt", type := "string",
          description := "English description of how to edit the image" },
        { name := "size", type := "string",
          description := "Optional size for edited image, if not specified uses original image dimensions",
          enumVals := some supported_sizes },
        { name := "output_path", type := "string",
          description := "Optional output file path" }],
     required := ["image_path", "prompt"] }]

/-- Tool list rendered by `handle_list_tools` in `mcp_server.py` (stdio
transport). -/
def stdio_tools (env : Env) : List ToolDescriptor :=
  let default_size := defaultImageSize env
  [{ name := "generate_image",
     description := "Generate images from text prompts using Azure AI Foundry (English prompts only)",
     properties :=
       [{ name := "prompt", type := "string",
          description := "English description for image generation" },
        { name := "size", type := "string",
          description := sizeDescription default_size,
          defaultVal := some default_size,
          enumVals := some supported_sizes },
        { name := "output_path", type := "string",
          description := "absolute output file path" }],
     required := ["prompt", "size", "output_path"] },
   { name := "edit_image",
     description := "Edit existing images using Azure AI Foundry (English prompts only)",
     properties :=
       [{ name := "image_path", type := "string",
          description := "Path to the image file to edit" },
        { name := "prompt", type := "string",
          description := "English description of how to edit the image" },
        { name := "size", type := "string",
          description := "Optional size for edited image, if not specified uses original image dimensions",
          enumVals := some supported_sizes },
        { name := "output_path", type := "string",
          description := "absolute output file path" }],
     required := ["image_path", "prompt", "size", "output_path"] }]

/-- Tool list rendered by `get_tools_list` in `mcp_server_http.py`
(Starlette transport). -/
def st_tools (env : Env) : List ToolDescriptor :=
  let default_size := defaultImageSize env
  [{ name := "generate_image",
     description := "Generate images from text prompts using Azure AI Foundry (English prompts only)",
     properties :=
       [{ name := "prompt", type := "string",
          description := "English description for image generation" },
        { name := "size", type := "string",
          description := sizeDescription default_size,
          defaultVal := some default_size,
          enumVals := some supported_sizes },
        { name := "output_path", type := "string",
          description := "Optional: output file path (for server-side save). Image data is always returned to client." }],
     required := ["prompt", "size"] },
   { name := "edit_image",
     description := "Edit an existing image with intelligent dimension preservation. Upload image data using base64 encoding.",
     properties :=
       [{ name := "image_data_base64", type := "string",
          description := "Base64 encoded image data. Supports both raw base64 (iVBORw0K...) and Data URL format (data:image/png;base64,iVBORw0K...)" },
        { name := "prompt", type := "string",
          description := "English description of how to edit the image" },
        { name := "size", type := "string",
          description := "Optional size for edited image, if not specified uses original image dimensions",
          enumVals := some supported_sizes },
        { name := "output_path", type := "string",
          description := "Optional: output file path (for server-side save). Image data is always returned to client." }],
     required := ["image_data_base64", "prompt"] }]

/-- The id member of a serialized response: present with an integer,
present with JSON `null`, or absent from the object. -/
inductive RespId
  | omitted
  | null
  | num (n : Int)
deriving DecidableEq, Repr

/-- Response id echoing a parsed request id (Python passes `body.get("id")`
through, so an absent or null request id serializes as `"id": null`). -/
def respIdOf : Option Int → RespId
  | none => .null
  | some n => .num n

structure RpcError where
  code : Int
  message : String
deriving DecidableEq, Repr

/-- The result payloads the dispatchers can return. -/
inductive RpcResult
  | initializeResult (protocolVersion serverName serverVersion : String)
      (listChanged : Option Bool)
  | toolsList (tools : List ToolDescriptor)
  | toolContent (content : List ContentBlock)
deriving DecidableEq, Repr

structure RpcResponse where
  id : RespId
  result : Option RpcResult := none
  error : Option RpcError := none
deriving DecidableEq, Repr

/-- Embedding of `create_mcp_response` from `http_server.py`: the error
member wins when present, otherwise the result member is set. -/
def create_mcp_response (request_id : Option Int) (result : Option RpcResult)
    (error : Option RpcError) : RpcResponse :=
  { id := respIdOf request_id,
    result := match error with | some _ => none | none => result,
    error := error }

/-- An inbound POST body: either JSON that failed to parse, or a parsed
envelope.  Python reads `id`, `method` and `params` with `dict.get`, so an
absent and a null member coincide as `none`; `params` defaults to the empty
mapping, giving an optional tool name and a `ToolArgs`. -/
inductive RpcIn
  | malformed
  | msg (id : Option Int) (method : Option String)
      (params_name : Option String) (params_args : ToolArgs)

/-- What an HTTP endpoint sends back: a JSON body with a status code, or
the empty 204 response used for notifications. -/
inductive HttpOut
  | json (status : Nat) (body : RpcResponse)
  | noContent
deriving DecidableEq, Repr

def HttpOut.bodyId : HttpOut → Option RespId
  | .json _ b => some b.id
  | .noContent => none

/-- Embedding of `handle_mcp_request` from `http_server.py` (VSCode HTTP
transport).  There is no notification handling: every parsed envelope is
dispatched by method name and receives a JSON-RPC body; FastAPI serves the
returned dict with status 200. -/
def vscode_handle_mcp_request (env : Env) (w : World) : RpcIn → RpcResponse
  | .malformed => create_mcp_response none none (some ⟨-32700, "Parse error"⟩)
  | .msg id method pname pargs =>
    if method = some "initialize" then
      create_mcp_response id
        (some (.initializeResult "2024-11-05" "azure-image-editor" "1.0.0" (some false))) none
    else if method = some "tools/list" then
      create_mcp_response id (some (.toolsList (vscode_tools env))) none
    else if method = some "tools/call" then
      if pname = some "generate_image" then
        create_mcp_response id
          (some (.toolContent (vscode_handle_generate_image env w pargs).content)) none
      else if pname = some "edit_image" then
        create_mcp_response id
          (some (.toolContent (vscode_handle_edit_image env w pargs).content)) none
      else
        create_mcp_response id none
          (some ⟨-32602, "Unknown tool: " ++ pyShowOptStr pname⟩)
    else
      create_mcp_response id none
        (some ⟨-32601, "Unknown method: " ++ pyShowOptStr method⟩)

/-- The VSCode dispatcher as seen on the wire (FastAPI returns the dict
with HTTP status 200). -/
def vscode_handle_mcp_request_http (env : Env) (w : World) (inp : RpcIn) :
    HttpOut :=
  .json 200 (vscode_handle_mcp_request env w inp)

/-- Message of the `AttributeError` Python raises when `method` is absent
on the notification path of `mcp_server_http.py`
(`method.startswith` on `None`), as formatted by the outer handler. -/
def startswithNoneMsg : String :=
  "'NoneType' object has no attribute 'startswith'"

/-- Embedding of `handle_jsonrpc` from `mcp_server_http.py` (Starlette
transport).  A null/absent id with a present method string takes the
notification branch (each of its three arms returns 204 with no body); a
null id with an absent method raises an `AttributeError` inside that
branch, which the outer `except` turns into a -32603 body with status 500
and the echoed (null) id.  The parse-error body carries no id member at
all. -/
def st_handle_jsonrpc (env : Env) (w : World) : RpcIn → HttpOut
  | .malformed =>
      .json 400 { id := .omitted, error := some ⟨-32700, "Parse error"⟩ }
  | .msg id method pname pargs =>
    match id with
    | none =>
      match method with
      | some _ => .noContent
      | none => .json 500 { id := .null, error := some ⟨-32603, startswithNoneMsg⟩ }
    | some n =>
      if method = some "initialize" then
        .json 200
          { id := .num n,
            result := some (.initializeResult "2024-11-05" "azure-image-editor" "1.0.0" none) }
      else if method = some "tools/list" then
        .json 200 { id := .num n, result := some (.toolsList (st_tools env)) }
      else if method = some "tools/call" then
        .json 200
          { id := .num n,
            result := some (.toolContent (st_call_tool env w pname pargs).content) }
      else
        .json 400
          { id := .num n,
            error := some ⟨-32601, "Method not found: " ++ pyShowOptStr method⟩ }

/-- Serving state threaded through a request sequence; neither server
mutates the process environment or any module-level value while serving,
so the state is exactly the environment and the collaborator oracles. -/
structure ServerState where
  env : Env
  w : World

/-- One Starlette request/response exchange, with explicit state passing;
`handle_jsonrpc` assigns no global, so the state passes through
unchanged. -/
def st_step (s : ServerState) (r : RpcIn) : ServerState × HttpOut :=
  (s, st_handle_jsonrpc s.env s.w r)

/-- One VSCode-transport exchange, with explicit state passing. -/
def vscode_step (s : ServerState) (r : RpcIn) : ServerState × HttpOut :=
  (s, vscode_handle_mcp_request_http s.env s.w r)

/-- Runs a server over a request list, threading the state. -/
def runSeq (f : ServerState → RpcIn → ServerState × HttpOut)
    (s : ServerState) : List RpcIn → List HttpOut
  | [] => []
  | r :: rs =>
    let p := f s r
    p.2 :: runSeq f p.1 rs

/-- Characters of the four rejected ranges start at code point 0x3040. -/
theorem cjk_lower_bound {c : Char} (h : isCJKChar c = true) :
    0x3040 ≤ c.toNat := by
  simp only [isCJKChar, Bool.or_eq_true, Bool.and_eq_true, decide_eq_true_eq] at h
  omega

/-- Characters stripped by Python whitespace stripping stay at or below
code point 0x3000. -/
theorem pyIsSpace_upper_bound {c : Char} (h : pyIsSpace c = true) :
    c.toNat ≤ 0x3000 := by
  simp [pyIsSpace, pyWhitespaceCodes] at h
  omega

/-- A character list that strips to nothing contains no character of the
rejected ranges. -/
theorem no_cjk_of_strip_nil {l : List Char} (h : pyStripChars l = []) :
    l.any isCJKChar = false := by
  have hall : ∀ c ∈ l, pyIsSpace c = true := by
    intro c hc
    unfold pyStripChars at h
    rw [List.reverse_eq_nil_iff, List.dropWhile_eq_nil_iff] at h
    have hsplit : l.takeWhile pyIsSpace ++ l.dropWhile pyIsSpace = l :=
      List.takeWhile_append_dropWhile pyIsSpace l
    rw [← hsplit, List.mem_append] at hc
    rcases hc with hc | hc
    · exact List.mem_takeWhile_imp hc
    · exact h c (List.mem_reverse.mpr hc)
  rw [List.any_eq_false]
  intro c hc hcjk
  have h1 := cjk_lower_bound hcjk
  have h2 := pyIsSpace_upper_bound (hall c hc)
  omega

/-- The whitespace-only early return of `is_english_text` is redundant:
the function is the negated scan for rejected-range characters. -/
theorem is_english_text_eq (s : String) :
    is_english_text s = !(s.data.any isCJKChar) := by
  unfold is_english_text
  split
  · rename_i h
    rw [no_cjk_of_strip_nil h]
    rfl
  · rfl

/-- A prompt containing a rejected-range character fails the language
check. -/
theorem is_english_false_of_cjk {p : String}
    (h : p.data.any isCJKChar = true) : is_english_text p = false := by
  rw [is_english_text_eq, h]
  rfl

/-- Appending the edit suffix preserves the presence of a rejected-range
character, so the suffixed prompt also fails the language check. -/
theorem is_english_append_false_of_cjk {p suf : String}
    (h : p.data.any isCJKChar = true) :
    is_english_text (p ++ suf) = false := by
  rw [is_english_text_eq, String.data_append, List.any_append, h]
  rfl

/-- A run under a state-preserving step function is the pointwise map of
that step over the request list. -/
theorem runSeq_eq_map {f : ServerState → RpcIn → ServerState × HttpOut}
    (hf : ∀ s r, (f s r).1 = s) (s : ServerState) (rs : List RpcIn) :
    runSeq f s rs = rs.map (fun r => (f s r).2) := by
  induction rs with
  | nil => rfl
  | cons r rs ih =>
      rw [runSeq, List.map_cons]
      rw [hf s r]
      rw [ih]

/-- Environment with a complete, valid Azure configuration, used for
concrete instantiations. -/
def exampleEnv : Env :=
  { azure_base_url := some "https://example.services.ai.azure.com",
    azure_api_key := some "0123456789abc",
    azure_deployment_name := some "dep" }

/-- Collaborator oracles where every external operation succeeds, used for
concrete instantiations. -/
def exampleWorld : World :=
  { pathExists := fun _ => true,
    readFile := fun _ => .ok [1, 2, 3],
    b64decode := fun _ => .ok [65, 66, 67],
    detectFormat := fun _ => .ok "png",
    tempFileName := fun sfx => "/tmp/tmpabc" ++ sfx,
    upstreamGenerate := fun _ _ => .ok [137, 80],
    upstreamEdit := fun _ _ _ => .ok [137, 80] }

theorem exceptIsOk_iff {ε α : Type} (x : Except ε α) :
    exceptIsOk x = true ↔ ∃ a, x = .ok a := by
  cases x <;> simp [exceptIsOk]

/-- Claim C4 counterexample: at a concrete timestamp, UUID and operation
kind, the directory name produced by `create_audit_session` is not the
specified three-segment pattern; it carries an extra `anonymous` segment
between the UUID fragment and the operation kind. -/
theorem audit_dirname_counterexample :
    create_audit_session_dirname "20260101_120000"
        "abcd1234-0000-0000-0000-000000000000" "generate_image" =
      "20260101_120000_abcd1234_anonymous_generate_image" ∧
    create_audit_session_dirname "20260101_120000"
        "abcd1234-0000-0000-0000-000000000000" "generate_image" ≠
      spec_audit_dirname "20260101_120000" "abcd1234" "generate_image" := by
  exact ⟨rfl, by decide⟩

/-- Claim C4 (amended): every audit session directory name produced by
`create_audit_session` is the timestamp, the first 8 characters of the
UUID, the literal segment `anonymous`, and the operation kind, joined by
underscores; equivalently, it matches the specified pattern only when the
operation segment is read as `anonymous_` followed by the tool's operation
name. -/
theorem audit_dirname_amended (ts u op : String) :
    create_audit_session_dirname ts u op =
      ts ++ "_" ++ u.take 8 ++ "_anonymous_" ++ op ∧
    create_audit_session_dirname ts u op =
      spec_audit_dirname ts (u.take 8) ("anonymous_" ++ op) := by
  constructor
  · rfl
  · show ts ++ "_" ++ u.take 8 ++ "_anonymous_" ++ op =
        ts ++ "_" ++ u.take 8 ++ "_" ++ ("anonymous_" ++ op)
    have h : ("_anonymous_" : String) ++ op = "_" ++ ("anonymous_" ++ op) := by
      rw [← String.append_assoc]
      rw [show ("_" : String) ++ "anonymous_" = "_anonymous_" from rfl]
    rw [String.append_assoc, h, ← String.append_assoc]

/-- Claim C8 counterexample: on the stdio transport the generate tool's
required list is not the single element `prompt`; it also demands `size`
and `output_path`. -/
theorem registry_required_counterexample :
    (stdio_tools exampleEnv).map (fun t => (t.name, t.required)) =
      [("generate_image", ["prompt", "size", "output_path"]),
       ("edit_image", ["image_path", "prompt", "size", "output_path"])] ∧
    (["prompt", "size", "output_path"] : List String) ≠ ["prompt"] := by
  exact ⟨rfl, by decide⟩

/-- Claim C8 (amended): all three transports expose the same two tool
names, but the required lists differ per transport: the VSCode HTTP
transport requires only `prompt` for generation and `image_path` plus
`prompt` for editing; the Starlette transport requires `prompt` and
`size` for generation and `image_data_base64` plus `prompt` for editing;
the stdio transport marks every declared generation property required and
every editing property required. -/
theorem registry_required_amended (env : Env) :
    (vscode_tools env).map (fun t => (t.name, t.required)) =
      [("generate_image", ["prompt"]),
       ("edit_image", ["image_path", "prompt"])] ∧
    (st_tools env).map (fun t => (t.name, t.required)) =
      [("generate_image", ["prompt", "size"]),
       ("edit_image", ["image_data_base64", "prompt"])] ∧
    (stdio_tools env).map (fun t => (t.name, t.required)) =
      [("generate_image", ["prompt", "size", "output_path"]),
       ("edit_image", ["image_path", "prompt", "size", "output_path"])] := by
  exact ⟨rfl, rfl, rfl⟩

/-- Claim C5 counterexample: a generate request whose prompt fails the
language check is nonetheless recorded: the audit session is created and
`request.json` written before validation runs, so the handler's trace for
a rejected prompt starts with the session creation and the request
record. -/
theorem audit_order_counterexample :
    is_english_text "你好" = false ∧
    (vscode_handle_generate_image exampleEnv exampleWorld
        { prompt := some "你好" }).events =
      [Event.createAuditSession "generate_image",
       Event.auditRequest (.genRequest "你好" "1024x1024" none),
       Event.auditResponse (some englishGenMsg) false none] := by
  exact ⟨by decide, by decide⟩

/-- Claim C5 (amended): in `handle_generate_image` of the VSCode HTTP
transport, audit recording precedes validation: every invocation's trace
begins with the audit-session creation followed by the `request.json`
write, whatever the validation outcome — a request rejected by validation
is recorded too; the upstream collaborator, by contrast, is invoked only
after the language and size checks pass. -/
theorem audit_order_amended (env : Env) (w : World) (args : ToolArgs) :
    (∃ rest,
      (vscode_handle_generate_image env w args).events =
        Event.createAuditSession "generate_image" ::
        Event.auditRequest (.genRequest (args.prompt.getD "")
          (args.size.getD (defaultImageSize env)) args.output_path) :: rest) ∧
    ((is_english_text (args.prompt.getD "") = false ∨
      validate_image_size (args.size.getD (defaultImageSize env)) = false) →
      noUpstream (vscode_handle_generate_image env w args) = true) := by
  constructor
  · unfold vscode_handle_generate_image
    dsimp only
    repeat' first
      | exact ⟨_, rfl⟩
      | split
  · intro h
    rcases hcfg : get_azure_config_vscode env with e | cfg
    · simp [vscode_handle_generate_image, hcfg, noUpstream, Event.isUpstream]
    · rcases heng : is_english_text (args.prompt.getD "") with _ | _
      · simp [vscode_handle_generate_image, hcfg, heng, noUpstream,
          Event.isUpstream]
      · rcases h with h | h
        · rw [heng] at h
          exact absurd h (by simp)
        · simp [vscode_handle_generate_image, hcfg, heng, h, noUpstream,
            Event.isUpstream]

/-- Claim C5 witness: the amended theorem at a concrete rejected prompt:
the trace still opens with session creation and the request record, and
the rejection implies no upstream call. -/
theorem audit_order_witness :
    (is_english_text "你好" = false ∨ validate_image_size "1024x1024" = false) ∧
    (∃ rest,
      (vscode_handle_generate_image exampleEnv exampleWorld
        { prompt := some "你好" }).events =
        Event.createAuditSession "generate_image" ::
        Event.auditRequest (.genRequest "你好" "1024x1024" none) :: rest) ∧
    noUpstream (vscode_handle_generate_image exampleEnv exampleWorld
      { prompt := some "你好" }) = true := by
  have h := audit_order_amended exampleEnv exampleWorld { prompt := some "你好" }
  exact ⟨Or.inl (by decide), h.1, h.2 (Or.inl (by decide))⟩

/-- Claim C1 counterexample: an `edit_image` call on the Starlette
transport whose prompt contains a CJK character but whose `image_data_base64`
is absent — with an environment whose Azure configuration loads — returns
a single text block about the missing parameter, not the English-only
rejection, because the required-parameter check precedes the language
check. -/
theorem english_gate_counterexample :
    ("你好".data.any isCJKChar = true) ∧
    exceptIsOk (get_azure_config exampleEnv) = true ∧
    (st_handle_edit_image exampleEnv exampleWorld { prompt := some "你好" }).content =
      [.text "'image_data_base64' parameter is required in HTTP mode"] ∧
    ([ContentBlock.text "'image_data_base64' parameter is required in HTTP mode"] ≠
      [ContentBlock.text englishEditMsg]) := by
  exact ⟨by decide, by decide, by decide, by decide⟩

/-- Claim C1 (amended): when the prompt contains a character of the four
rejected ranges and the Azure configuration loads, every generate handler,
and every edit handler whose transport-specific image-source argument is
present and non-empty (for the VSCode edit handler unconditionally),
returns exactly one text block stating the English-only requirement and
never invokes the upstream image collaborator. -/
theorem english_gate_amended (env : Env) (w : World) (args : ToolArgs)
    (hcjk : (args.prompt.getD "").data.any isCJKChar = true)
    (hcfgv : exceptIsOk (get_azure_config_vscode env) = true)
    (hcfg : exceptIsOk (get_azure_config env) = true) :
    ((vscode_handle_generate_image env w args).content = [.text englishGenMsg] ∧
      noUpstream (vscode_handle_generate_image env w args) = true) ∧
    ((stdio_handle_generate_image env w args).content = [.text englishGenMsg] ∧
      noUpstream (stdio_handle_generate_image env w args) = true) ∧
    ((st_handle_generate_image env w args).content = [.text englishGenMsg] ∧
      noUpstream (st_handle_generate_image env w args) = true) ∧
    ((vscode_handle_edit_image env w args).content = [.text englishEditMsg] ∧
      noUpstream (vscode_handle_edit_image env w args) = true) ∧
    (pyFalsy args.image_path = false →
      (stdio_handle_edit_image env w args).content = [.text englishEditMsg] ∧
      noUpstream (stdio_handle_edit_image env w args) = true) ∧
    (pyFalsy args.image_data_base64 = false →
      (st_handle_edit_image env w args).content = [.text englishEditMsg] ∧
      noUpstream (st_handle_edit_image env w args) = true) := by
  obtain ⟨cv, hv⟩ := (exceptIsOk_iff _).mp hcfgv
  obtain ⟨c, hc⟩ := (exceptIsOk_iff _).mp hcfg
  have heng := is_english_false_of_cjk hcjk
  have heng2 : is_english_text (args.prompt.getD "" ++ editPromptSuffix) = false :=
    is_english_append_false_of_cjk hcjk
  refine ⟨?_, ?_, ?_, ?_, fun hip => ?_, fun hib => ?_⟩
  · constructor <;>
      simp [vscode_handle_generate_image, hv, heng, noUpstream, Event.isUpstream]
  · constructor <;>
      simp [stdio_handle_generate_image, hc, heng, noUpstream, Event.isUpstream]
  · constructor <;>
      simp [st_handle_generate_image, hc, heng, noUpstream, Event.isUpstream]
  · constructor <;>
      simp [vscode_handle_edit_image, hv, heng2, noUpstream, Event.isUpstream]
  · constructor <;>
      simp [stdio_handle_edit_image, hc, heng2, hip, noUpstream, Event.isUpstream]
  · constructor <;>
      simp [st_handle_edit_image, hc, heng2, hib, noUpstream, Event.isUpstream]

/-- Claim C1 witness: a concrete CJK prompt with a complete configuration
and both image-source arguments present exercises the amended theorem. -/
theorem english_gate_witness :
    (("画一只猫".data.any isCJKChar = true) ∧
     exceptIsOk (get_azure_config_vscode exampleEnv) = true ∧
     exceptIsOk (get_azure_config exampleEnv) = true) ∧
    ((vscode_handle_generate_image exampleEnv exampleWorld
        { prompt := some "画一只猫", image_path := some "in.png",
          image_data_base64 := some "QUJD" }).content = [.text englishGenMsg] ∧
      noUpstream (vscode_handle_generate_image exampleEnv exampleWorld
        { prompt := some "画一只猫", image_path := some "in.png",
          image_data_base64 := some "QUJD" }) = true) := by
  refine ⟨⟨by decide, by decide, by decide⟩, ?_⟩
  exact (english_gate_amended exampleEnv exampleWorld
    { prompt := some "画一只猫", image_path := some "in.png",
      image_data_base64 := some "QUJD" }
    (by decide) (by decide) (by decide)).1

/-- Claim C2 counterexample: an `edit_image` call carrying the size
`999x999` — outside the supported enum — does not return a size rejection
and does invoke the upstream image collaborator with that unvalidated
size: the edit handlers perform no size check. -/
theorem size_gate_counterexample :
    validate_image_size "999x999" = false ∧
    Event.upstream (.edit "/tmp/tmpabc.png"
        ("make it blue" ++ editPromptSuffix) (some "999x999") none) ∈
      (st_handle_edit_image exampleEnv exampleWorld
        { prompt := some "make it blue", size := some "999x999",
          image_data_base64 := some "QUJD" }).events ∧
    (∀ b ∈ (st_handle_edit_image exampleEnv exampleWorld
        { prompt := some "make it blue", size := some "999x999",
          image_data_base64 := some "QUJD" }).content,
      b ≠ .text (unsupportedSizeMsg "999x999")) := by
  refine ⟨by decide, by decide, ?_⟩
  intro b hb
  have h : (st_handle_edit_image exampleEnv exampleWorld
      { prompt := some "make it blue", size := some "999x999",
        image_data_base64 := some "QUJD" }).content =
      [.text ("Image editing successful, edit prompt: '" ++
        ("make it blue" ++ editPromptSuffix) ++ "'"),
       .image (base64_b64encode [137, 80]) "image/png"] := by decide
  rw [h] at hb
  simp only [List.mem_cons, List.not_mem_nil, or_false] at hb
  rcases hb with hb | hb
  · rw [hb]; decide
  · rw [hb]; decide

/-- Claim C2 (amended): only the generate handlers validate size. On every
transport, a `generate_image` call whose Azure configuration loads, whose
prompt passes the English check and whose effective size (explicit
argument, else the configured default) is outside the three-element enum
returns exactly one text block naming the supported sizes and never
invokes the upstream collaborator; `edit_image` forwards its size
argument unvalidated. -/
theorem size_gate_amended (env : Env) (w : World) (args : ToolArgs)
    (heng : is_english_text (args.prompt.getD "") = true)
    (hsz : validate_image_size (args.size.getD (defaultImageSize env)) = false)
    (hcfgv : exceptIsOk (get_azure_config_vscode env) = true)
    (hcfg : exceptIsOk (get_azure_config env) = true) :
    ((vscode_handle_generate_image env w args).content =
        [.text (unsupportedSizeMsg (args.size.getD (defaultImageSize env)))] ∧
      noUpstream (vscode_handle_generate_image env w args) = true) ∧
    ((stdio_handle_generate_image env w args).content =
        [.text (unsupportedSizeMsg (args.size.getD (defaultImageSize env)))] ∧
      noUpstream (stdio_handle_generate_image env w args) = true) ∧
    ((st_handle_generate_image env w args).content =
        [.text (unsupportedSizeMsg (args.size.getD (defaultImageSize env)))] ∧
      noUpstream (st_handle_generate_image env w args) = true) := by
  obtain ⟨cv, hv⟩ := (exceptIsOk_iff _).mp hcfgv
  obtain ⟨c, hc⟩ := (exceptIsOk_iff _).mp hcfg
  refine ⟨?_, ?_, ?_⟩
  · constructor <;>
      simp [vscode_handle_generate_image, hv, heng, hsz, noUpstream, Event.isUpstream]
  · constructor <;>
      simp [stdio_handle_generate_image, hc, heng, hsz, noUpstream, Event.isUpstream]
  · constructor <;>
      simp [st_handle_generate_image, hc, heng, hsz, noUpstream, Event.isUpstream]

/-- Claim C2 witness: a concrete out-of-enum size with an English prompt
and a loading configuration exercises the amended theorem. -/
theorem size_gate_witness :
    (is_english_text "a red cat" = true ∧
     validate_image_size "800x600" = false ∧
     exceptIsOk (get_azure_config_vscode exampleEnv) = true ∧
     exceptIsOk (get_azure_config exampleEnv) = true) ∧
    ((vscode_handle_generate_image exampleEnv exampleWorld
        { prompt := some "a red cat", size := some "800x600" }).content =
      [.text (unsupportedSizeMsg "800x600")] ∧
      noUpstream (vscode_handle_generate_image exampleEnv exampleWorld
        { prompt := some "a red cat", size := some "800x600" }) = true) := by
  refine ⟨⟨by decide, by decide, by decide, by decide⟩, ?_⟩
  exact (size_gate_amended exampleEnv exampleWorld
    { prompt := some "a red cat", size := some "800x600" }
    (by decide) (by decide) (by decide) (by decide)).1

/-- Claim C3 counterexample: on the Starlette transport a `tools/call`
with an unknown tool name is answered with a success result (error member
absent) whose content is a single error text block — not a -32602 invalid
params error object. -/
theorem unknown_tool_counterexample :
    st_handle_jsonrpc exampleEnv exampleWorld
        (.msg (some 4) (some "tools/call") (some "unknown_tool") {}) =
      .json 200
        { id := .num 4,
          result := some (.toolContent [.text "Error: Unknown tool 'unknown_tool'"]),
          error := none } ∧
    (none : Option RpcError) ≠
      some { code := -32602, message := "Unknown tool: unknown_tool" } := by
  exact ⟨by decide, by decide⟩

/-- Claim C3 (amended): the two HTTP dispatchers disagree on unknown tool
names. The VSCode transport answers any `tools/call` naming neither
`generate_image` nor `edit_image` with a -32602 invalid-params error and
never a -32603; the Starlette transport answers it with HTTP 200 and a
success result whose content is a single error text block. -/
theorem unknown_tool_amended (env : Env) (w : World) (id : Option Int)
    (n : Int) (pname : Option String) (pargs : ToolArgs)
    (h1 : pname ≠ some "generate_image") (h2 : pname ≠ some "edit_image") :
    vscode_handle_mcp_request env w (.msg id (some "tools/call") pname pargs) =
      create_mcp_response id none
        (some { code := -32602, message := "Unknown tool: " ++ pyShowOptStr pname }) ∧
    st_handle_jsonrpc env w (.msg (some n) (some "tools/call") pname pargs) =
      .json 200
        { id := .num n,
          result := some (.toolContent
            [.text ("Error: Unknown tool '" ++ pyShowOptStr pname ++ "'")]),
          error := none } := by
  constructor
  · simp [vscode_handle_mcp_request, h1, h2]
  · simp [st_handle_jsonrpc, st_call_tool, h1, h2]

/-- Claim C3 witness: the amended theorem at the concrete unknown name
`nonexistent_tool`. -/
theorem unknown_tool_witness :
    vscode_handle_mcp_request exampleEnv exampleWorld
        (.msg (some 7) (some "tools/call") (some "nonexistent_tool") {}) =
      create_mcp_response (some 7) none
        (some { code := -32602, message := "Unknown tool: nonexistent_tool" }) ∧
    st_handle_jsonrpc exampleEnv exampleWorld
        (.msg (some 7) (some "tools/call") (some "nonexistent_tool") {}) =
      .json 200
        { id := .num 7,
          result := some (.toolContent [.text "Error: Unknown tool 'nonexistent_tool'"]),
          error := none } := by
  exact unknown_tool_amended exampleEnv exampleWorld (some 7) 7
    (some "nonexistent_tool") {} (by decide) (by decide)

/-- Claim C6 counterexample: the Starlette transport's parse-error
response omits the id member entirely rather than carrying id null. -/
theorem id_echo_counterexample :
    st_handle_jsonrpc exampleEnv exampleWorld .malformed =
      .json 400 { id := .omitted, error := some { code := -32700, message := "Parse error" } } ∧
    RespId.omitted ≠ RespId.null := by
  exact ⟨by decide, by decide⟩

/-- Claim C6 (amended): every JSON-RPC body response echoes the request id
(absent or null echoes as null), with one exception: on the Starlette
transport the parse-error body carries no id member at all; on the VSCode
transport the parse-error body carries id null as specified. -/
theorem id_echo_amended (env : Env) (w : World) :
    (∀ id method pname pargs,
      (vscode_handle_mcp_request env w (.msg id method pname pargs)).id =
        respIdOf id) ∧
    (vscode_handle_mcp_request env w .malformed).id = RespId.null ∧
    (∀ id method pname pargs,
      (st_handle_jsonrpc env w (.msg id method pname pargs)).bodyId = none ∨
      (st_handle_jsonrpc env w (.msg id method pname pargs)).bodyId =
        some (respIdOf id)) ∧
    (st_handle_jsonrpc env w .malformed).bodyId = some RespId.omitted := by
  refine ⟨?_, rfl, ?_, rfl⟩
  · intro id method pname pargs
    simp only [vscode_handle_mcp_request]
    repeat' first
      | rfl
      | split
  · intro id method pname pargs
    rcases id with _ | n
    · rcases method with _ | m
      · exact Or.inr rfl
      · exact Or.inl rfl
    · refine Or.inr ?_
      simp only [st_handle_jsonrpc]
      repeat' first
        | rfl
        | split

/-- Claim C7 counterexample: on the VSCode HTTP transport, the
notification envelope `notifications/initialized` with a null id is not
answered 204 with an empty body; it is dispatched like a request and
receives a JSON-RPC body — a -32601 error carrying id null. -/
theorem notification_counterexample :
    vscode_handle_mcp_request_http exampleEnv exampleWorld
        (.msg none (some "notifications/initialized") none {}) =
      .json 200
        { id := .null,
          error := some { code := -32601,
                          message := "Unknown method: notifications/initialized" } } ∧
    vscode_handle_mcp_request_http exampleEnv exampleWorld
        (.msg none (some "notifications/initialized") none {}) ≠ .noContent := by
  exact ⟨by decide, by decide⟩

/-- Claim C7 (amended): only the Starlette transport implements the
notification short-circuit: an envelope with absent/null id and a present
method string is answered 204 with an empty body; a null-id envelope
without a method string takes the internal-error path instead (HTTP 500
JSON body); and on the VSCode HTTP transport every parsed envelope —
null-id notifications included — receives a JSON body with status 200. -/
theorem notification_amended (env : Env) (w : World) :
    (∀ m pname pargs,
      st_handle_jsonrpc env w (.msg none (some m) pname pargs) = .noContent) ∧
    (∀ pname pargs,
      st_handle_jsonrpc env w (.msg none none pname pargs) =
        .json 500 { id := .null,
                    error := some { code := -32603, message := startswithNoneMsg } }) ∧
    (∀ id method pname pargs, ∃ body,
      vscode_handle_mcp_request_http env w (.msg id method pname pargs) =
        .json 200 body) := by
  refine ⟨fun m pname pargs => rfl, fun pname pargs => rfl, ?_⟩
  intro id method pname pargs
  exact ⟨_, rfl⟩

/-- Request used to probe `tools/list` idempotence. -/
def toolsListReq (n : Int) : RpcIn :=
  .msg (some n) (some "tools/list") none {}

/-- Claim C9: `tools/list` is idempotent on both HTTP transports. In any
request sequence served from a state (environment plus collaborator
oracles), every occurrence of a `tools/list` request is answered with the
tool list rendered from the unchanged initial state, so any two
occurrences carry identical schema content. -/
theorem tools_list_idempotent (s : ServerState) (rs : List RpcIn)
    (i j : Nat) (ni nj : Int)
    (hi : rs.get? i = some (toolsListReq ni))
    (hj : rs.get? j = some (toolsListReq nj)) :
    (runSeq st_step s rs).get? i =
      some (.json 200 { id := .num ni, result := some (.toolsList (st_tools s.env)) }) ∧
    (runSeq st_step s rs).get? j =
      some (.json 200 { id := .num nj, result := some (.toolsList (st_tools s.env)) }) ∧
    (runSeq vscode_step s rs).get? i =
      some (.json 200 { id := respIdOf (some ni),
                        result := some (.toolsList (vscode_tools s.env)) }) ∧
    (runSeq vscode_step s rs).get? j =
      some (.json 200 { id := respIdOf (some nj),
                        result := some (.toolsList (vscode_tools s.env)) }) := by
  rw [runSeq_eq_map (fun _ _ => rfl) s rs, runSeq_eq_map (fun _ _ => rfl) s rs]
  simp only [List.get?_map, hi, hj, Option.map_some]
  exact ⟨rfl, rfl, rfl, rfl⟩

/-- Claim C9 witness: a concrete two-request run in which both requests
are `tools/list`, instantiating the idempotence theorem at positions 0
and 1. -/
theorem tools_list_idempotent_witness :
    ([toolsListReq 1, toolsListReq 2].get? 0 = some (toolsListReq 1) ∧
     [toolsListReq 1, toolsListReq 2].get? 1 = some (toolsListReq 2)) ∧
    ((runSeq st_step { env := exampleEnv, w := exampleWorld }
        [toolsListReq 1, toolsListReq 2]).get? 0 =
      some (.json 200
              { id := .num 1,
                result := some (.toolsList (st_tools exampleEnv)) }) ∧
     (runSeq st_step { env := exampleEnv, w := exampleWorld }
        [toolsListReq 1, toolsListReq 2]).get? 1 =
      some (.json 200
              { id := .num 2,
                result := some (.toolsList (st_tools exampleEnv)) })) := by
  refine ⟨⟨rfl, rfl⟩, ?_⟩
  have h := tools_list_idempotent { env := exampleEnv, w := exampleWorld }
    [toolsListReq 1, toolsListReq 2] 0 1 1 2 rfl rfl
  exact ⟨h.1, h.2.1⟩

/-- Claim C10: in the Starlette `edit_image` handler, every temporary
input file created from a decoded base64 payload is deleted before the
handler returns — the deletion event appears in the trace on the success
path and on every failure path reached after the creation. -/
theorem temp_cleanup (env : Env) (w : World) (args : ToolArgs) (p : String)
    (hc : Event.tempCreate p ∈ (st_handle_edit_image env w args).events) :
    Event.tempDelete p ∈ (st_handle_edit_image env w args).events := by
  unfold st_handle_edit_image at hc ⊢
  revert hc
  dsimp only
  repeat' split
  all_goals intro hc
  all_goals simp_all

/-- Claim C10 witness: a concrete successful edit run creates the
temporary file and the cleanup theorem yields its deletion. -/
theorem temp_cleanup_witness :
    Event.tempCreate "/tmp/tmpabc.png" ∈
      (st_handle_edit_image exampleEnv exampleWorld
        { prompt := some "brighten", image_data_base64 := some "QUJD" }).events ∧
    Event.tempDelete "/tmp/tmpabc.png" ∈
      (st_handle_edit_image exampleEnv exampleWorld
        { prompt := some "brighten", image_data_base64 := some "QUJD" }).events := by
  refine ⟨by decide, ?_⟩
  exact temp_cleanup exampleEnv exampleWorld
    { prompt := some "brighten", image_data_base64 := some "QUJD" }
    "/tmp/tmpabc.png" (by decide)

end AzureMCP
